import Mathlib

/-!
Shallow embedding of `src/Backend/db.py` (the Platter data-model layer),
focused on the Identity & Session Manager on the `User` model, plus the
`Recipe` serializer. Machine details of the ORM (`db.Column`,
`db.relationship`) are modelled as plain record fields; method bodies are
translated line by line. Python exceptions are modelled with `Except`.
-/

/-- Python runtime errors that the embedded code can raise. -/
inductive PyErr where
  | typeError
  | attributeError
  | validationError
  deriving DecidableEq, Repr

/-- Python values appearing in the embedded code: strings, bytes, ints,
`None`, lists, tuples and dicts (dicts keyed by strings, as all dict
literals in `db.py` are). -/
inductive PyVal where
  | none
  | str (s : String)
  | bytes (b : String)
  | int (n : Nat)
  | list (xs : List PyVal)
  | tuple (xs : List PyVal)
  | dict (kvs : List (String × PyVal))

/-- Lifts `kwargs.get(key)`: a present string field or Python `None`. -/
def pyOfOptStr : Option String → PyVal
  | Option.none => PyVal.none
  | Option.some s => PyVal.str s

/-- Models `x.encode("utf8")`: defined on `str` (giving `bytes`); any other
value (in particular `bytes`, which has no `encode` in Python 3) raises
`AttributeError`. -/
def pyEncode (x : PyVal) (_codec : String) : Except PyErr PyVal :=
  match x with
  | PyVal.str s => Except.ok (PyVal.bytes s)
  | _ => Except.error PyErr.attributeError

/-- Models `x.decode("utf8")`: defined on `bytes` (giving `str`); any other
value raises `AttributeError`. -/
def pyDecode (x : PyVal) (_codec : String) : Except PyErr PyVal :=
  match x with
  | PyVal.bytes b => Except.ok (PyVal.str b)
  | _ => Except.error PyErr.attributeError

/-- Models `bcrypt.hashpw(...)`. The library function requires exactly two
`bytes` arguments, `(password, salt)`; any other call raises `TypeError`.
The digest itself is computed by the abstract bcrypt algorithm `alg`
(salted hash: plaintext and salt to digest). -/
def bcrypt.hashpw (alg : String → String → String) (args : List PyVal) :
    Except PyErr PyVal :=
  match args with
  | [password, salt] =>
    match password, salt with
    | PyVal.bytes p, PyVal.bytes s => Except.ok (PyVal.bytes (alg p s))
    | _, _ => Except.error PyErr.typeError
  | _ => Except.error PyErr.typeError

/-- Models `bcrypt.checkpw(...)`: requires exactly two `bytes` arguments,
`(password, hashed)`; any other call raises `TypeError`. The comparison is
performed by the abstract bcrypt verifier `chk`. -/
def bcrypt.checkpw (chk : String → String → Bool) (args : List PyVal) :
    Except PyErr Bool :=
  match args with
  | [password, hashed] =>
    match password, hashed with
    | PyVal.bytes p, PyVal.bytes h => Except.ok (chk p h)
    | _, _ => Except.error PyErr.typeError
  | _ => Except.error PyErr.typeError

/-- Entropy environment for token generation: `sha1hex` is the SHA-1 hex
digest on byte strings (`hashlib.sha1(...).hexdigest()`), and `urandom n i`
is the `i`-th draw of `n` fresh random bytes from `os.urandom`. Draws are
indexed by a counter threaded through the state so that successive calls
consume successive draws. -/
structure TokenEnv where
  sha1hex : List Nat → String
  urandom : Nat → Nat → List Nat

/-- Embedding of `User._urlsafe_base_64` (db.py lines 49-53):
`hashlib.sha1(os.urandom(64)).hexdigest()`. Returns the token together
with the advanced draw counter. -/
def TokenEnv.urlsafeBase64 (env : TokenEnv) (ctr : Nat) : String × Nat :=
  (env.sha1hex (env.urandom 64 ctr), ctr + 1)

/-- The token produced by the `i`-th call of `User._urlsafe_base_64`. -/
def TokenEnv.tokenAt (env : TokenEnv) (i : Nat) : String :=
  env.sha1hex (env.urandom 64 i)

/-- Seconds in `datetime.timedelta(days=d)`. -/
def timedeltaDays (d : Nat) : Nat := d * 24 * 60 * 60

/-- The in-memory `User` row of db.py lines 12-35. The ORM column types are
modelled directly: nullable string columns as `Option String`, the
`DateTime` column as seconds (`Nat`), and `password_digest` as a raw
Python value (what line 46 actually assigns is not a string). -/
structure UserState where
  id : Nat
  first_name : Option String
  last_name : Option String
  username : Option String
  password_digest : PyVal
  image_url : Option String
  session_token : String
  session_expiration : Nat
  update_token : String

/-- Embedding of `User.renew_session` (db.py lines 55-64): line 62 assigns a
fresh `_urlsafe_base_64()` to `session_token`, line 63 sets
`session_expiration` to `datetime.datetime.now() + datetime.timedelta(days=1)`,
line 64 assigns another fresh `_urlsafe_base_64()` to `update_token`. -/
def UserState.renew_session (env : TokenEnv) (now : Nat) (u : UserState)
    (ctr : Nat) : UserState × Nat :=
  let st := env.urlsafeBase64 ctr
  let u1 := { u with session_token := st.1,
                     session_expiration := now + timedeltaDays 1 }
  let ut := env.urlsafeBase64 st.2
  ({ u1 with update_token := ut.1 }, ut.2)

/-- Embedding of `User.verify_session_token` (db.py lines 72-76):
`session_token == self.session_token and datetime.datetime.now() < self.session_expiration`. -/
def UserState.verify_session_token (u : UserState) (session_token : String)
    (now : Nat) : Bool :=
  (session_token == u.session_token) && decide (now < u.session_expiration)

/-- Embedding of `User.verify_update_token` (db.py lines 78-82):
`update_token == self.update_token`. -/
def UserState.verify_update_token (u : UserState) (update_token : String) : Bool :=
  update_token == u.update_token

/-- Embedding of `User.verify_password` (db.py lines 66-70):
`bcrypt.checkpw(password.encode("utf8"), self.password_digest)`. -/
def UserState.verify_password (chk : String → String → Bool) (u : UserState)
    (password : String) : Except PyErr Bool := do
  let enc ← pyEncode (PyVal.str password) "utf8"
  bcrypt.checkpw chk [enc, u.password_digest]

/-- The keyword arguments accepted by `User.__init__`; a missing key makes
`kwargs.get(...)` return `None`. -/
structure Kwargs where
  first_name : Option String
  last_name : Option String
  username : Option String
  password_digest : Option String
  image_url : Option String

/-- Embedding of `User.__init__` (db.py lines 39-47). Lines 43-45 read the
name fields with `kwargs.get` (no validation: a missing field is `None`).
Line 46 evaluates
`bcrypt.hashpw(kwargs.get("password_digest")).encode("utf8"), bcrypt.gensalt(rounds=13).decode("utf8")`:
the first call passes a single argument to `bcrypt.hashpw`, which requires
both a password and a salt, so `TypeError` is raised there; the rest of
line 46 and line 47 (`self.renew_session()`) are never reached, and no
user object is ever constructed. `gensalt` abstracts
`bcrypt.gensalt(rounds=r)` as a salt `bytes` value per cost factor. -/
def User.init (alg : String → String → String) (chk : String → String → Bool)
    (gensalt : Nat → String) (env : TokenEnv) (now ctr : Nat)
    (kwargs : Kwargs) : Except PyErr (UserState × Nat) := do
  let first := kwargs.first_name
  let last := kwargs.last_name
  let uname := kwargs.username
  let hashed ← bcrypt.hashpw alg [pyOfOptStr kwargs.password_digest]
  let hashedEnc ← pyEncode hashed "utf8"
  let saltDec ← pyDecode (PyVal.bytes (gensalt 13)) "utf8"
  let pd := PyVal.tuple [hashedEnc, saltDec]
  let u0 : UserState :=
    { id := 0, first_name := first, last_name := last, username := uname,
      password_digest := pd, image_url := kwargs.image_url,
      session_token := "", session_expiration := 0, update_token := "" }
  let _ := chk
  Except.ok (UserState.renew_session env now u0 ctr)

/-- The `Recipe` row of db.py lines 108-120. The `ingredients` and
`instructions` columns are `db.JSON`, holding either a JSON list or a plain
string, so they are kept as raw Python values. -/
structure Recipe where
  id : Nat
  title : String
  summary : String
  ingredients : PyVal
  instructions : PyVal
  image_url : Option String

/-- Semantics of CPython `str.split(sep)` for a one-character separator,
on the character list of the string: splitting occurs at every occurrence
of the separator and empty pieces are kept, so the empty string yields one
empty piece and a trailing separator yields a trailing empty piece. -/
def pySplitChar (sep : Char) : List Char → List (List Char)
  | [] => [[]]
  | c :: cs =>
    let rest := pySplitChar sep cs
    if c = sep then [] :: rest
    else (c :: rest.headD []) :: rest.tail

/-- Models the Python call `s.split(sep)` for a one-character separator
string, as used on db.py lines 139-140. -/
def pySplit (s : String) (sep : Char) : List String :=
  (pySplitChar sep s.data).map (fun cs => String.mk cs)

/-- Models `x if isinstance(x, list) else x.split(chr(10))` from db.py lines
139-140: a list passes through unchanged; a string is split on newlines;
any other value has no `split` attribute and raises `AttributeError`. -/
def pyListOrSplitLines (x : PyVal) : Except PyErr PyVal :=
  match x with
  | PyVal.list xs => Except.ok (PyVal.list xs)
  | PyVal.str s => Except.ok (PyVal.list ((pySplit s (Char.ofNat 10)).map PyVal.str))
  | _ => Except.error PyErr.attributeError

/-- Embedding of `Recipe.serialize` (db.py lines 131-141): the returned dict
carries id, title, summary and the normalized ingredients/instructions. -/
def Recipe.serialize (r : Recipe) : Except PyErr (List (String × PyVal)) := do
  let ing ← pyListOrSplitLines r.ingredients
  let ins ← pyListOrSplitLines r.instructions
  Except.ok [("id", PyVal.int r.id),
             ("title", PyVal.str r.title),
             ("summary", PyVal.str r.summary),
             ("ingredients", ing),
             ("instructions", ins)]

/-- The `Post` row of db.py lines 178-188. -/
structure Post where
  id : Nat
  title : String
  description : String
  user_id : Nat
  group_id : Nat

/-- Models the call `post.serialize()` on db.py line 93: the `Post` model
(db.py lines 178-188) defines no `serialize` method, so the attribute
lookup raises `AttributeError` for every post. -/
def Post.serializeDispatch (_p : Post) : Except PyErr PyVal :=
  Except.error PyErr.attributeError

/-- The `SavedRecipe` row of db.py lines 143-153, with its `recipe`
relationship traversed eagerly. -/
structure SavedRecipe where
  id : Nat
  user_id : Nat
  recipe_id : Nat
  recipe : Recipe

/-- Embedding of `User.serialize` (db.py lines 84-95). The dict literal
evaluates the scalar entries, then the `posts` comprehension
(`post.serialize()` for each related post), then the `saved_recipes`
comprehension (`saved.recipe.serialize()` for each bookmark); an exception
in a comprehension propagates. The related rows are passed explicitly in
place of the lazy `self.posts` / `self.saved_recipes` relationships. -/
def UserState.serialize (u : UserState) (posts : List Post)
    (saved_recipes : List SavedRecipe) : Except PyErr (List (String × PyVal)) :=
  match posts.mapM Post.serializeDispatch with
  | Except.error e => Except.error e
  | Except.ok postsJ =>
    match saved_recipes.mapM (fun saved => Except.map PyVal.dict saved.recipe.serialize) with
    | Except.error e => Except.error e
    | Except.ok savedJ =>
        Except.ok [("id", PyVal.int u.id),
                   ("first_name", pyOfOptStr u.first_name),
                   ("last_name", pyOfOptStr u.last_name),
                   ("username", pyOfOptStr u.username),
                   ("posts", PyVal.list postsJ),
                   ("saved_recipes", PyVal.list savedJ)]

/-- Embedding of `User.simple_serialize` (db.py lines 97-106). -/
def UserState.simple_serialize (u : UserState) : List (String × PyVal) :=
  [("id", PyVal.int u.id),
   ("first_name", pyOfOptStr u.first_name),
   ("last_name", pyOfOptStr u.last_name),
   ("username", pyOfOptStr u.username)]

/-- The key list of a serialized dict. -/
def dictKeys (d : List (String × PyVal)) : List String := d.map Prod.fst

/-- A sample entropy environment: the `i`-th random draw is the byte `i`,
and the hash of a byte string is the decimal rendering of its first byte,
so the `i`-th generated token is `toString i`. -/
def envEx : TokenEnv :=
  { sha1hex := fun bs => toString (bs.headD 0),
    urandom := fun _n i => [i] }

/-- A sample user row used to instantiate theorems with hypotheses. -/
def userEx : UserState :=
  { id := 1, first_name := Option.some "Alice",
    last_name := Option.some "Smith", username := Option.some "alice",
    password_digest := PyVal.str "digest", image_url := Option.none,
    session_token := "oldsession", session_expiration := 100,
    update_token := "oldupdate" }

/-- C2: for every user state and string `t`, `verify_session_token` returns
true iff `t` equals the stored session token and the current time is
strictly before the stored expiration; at the expiration instant itself it
returns false, and the result is always a boolean, never an exception. -/
theorem verify_session_token_spec (u : UserState) (t : String) (now : Nat) :
    (UserState.verify_session_token u t now = true ↔
      (t = u.session_token ∧ now < u.session_expiration)) ∧
    UserState.verify_session_token u t u.session_expiration = false := by
  constructor
  · simp [UserState.verify_session_token]
  · simp [UserState.verify_session_token]

/-- C5: for every user state and string `t`, `verify_update_token` returns
true iff `t` equals the stored update token; the check involves no clock
and no expiration. -/
theorem verify_update_token_spec (u : UserState) (t : String) :
    UserState.verify_update_token u t = true ↔ t = u.update_token := by
  simp [UserState.verify_update_token]

/-- C3: `renew_session` overwrites the session token and the update token
with the two freshly generated tokens and sets the expiration to now plus
24 hours; provided the fresh tokens differ from the previous ones (as
newly generated random tokens do), equality comparison of the old session
token and the old update token against the stored fields fails. -/
theorem renew_session_spec (env : TokenEnv) (now ctr : Nat) (u : UserState)
    (hs : env.tokenAt ctr ≠ u.session_token)
    (hu : env.tokenAt (ctr + 1) ≠ u.update_token) :
    ((UserState.renew_session env now u ctr).1.session_token = env.tokenAt ctr) ∧
    ((UserState.renew_session env now u ctr).1.update_token = env.tokenAt (ctr + 1)) ∧
    ((UserState.renew_session env now u ctr).1.session_expiration = now + 24 * 60 * 60) ∧
    ((u.session_token == (UserState.renew_session env now u ctr).1.session_token) = false) ∧
    ((u.update_token == (UserState.renew_session env now u ctr).1.update_token) = false) := by
  refine ⟨rfl, rfl, by simp [UserState.renew_session, timedeltaDays], ?_, ?_⟩
  · exact beq_eq_false_iff_ne.mpr (Ne.symm hs)
  · exact beq_eq_false_iff_ne.mpr (Ne.symm hu)

/-- Witness for C3 at a concrete environment and user row. -/
theorem renew_session_spec_witness :
    (envEx.tokenAt 0 ≠ userEx.session_token) ∧
    (envEx.tokenAt 1 ≠ userEx.update_token) ∧
    (((UserState.renew_session envEx 100 userEx 0).1.session_token = envEx.tokenAt 0) ∧
     ((UserState.renew_session envEx 100 userEx 0).1.update_token = envEx.tokenAt 1) ∧
     ((UserState.renew_session envEx 100 userEx 0).1.session_expiration = 100 + 24 * 60 * 60) ∧
     ((userEx.session_token == (UserState.renew_session envEx 100 userEx 0).1.session_token) = false) ∧
     ((userEx.update_token == (UserState.renew_session envEx 100 userEx 0).1.update_token) = false)) :=
  ⟨by decide, by decide, renew_session_spec envEx 100 0 userEx (by decide) (by decide)⟩

/-- C7: assuming the token generator yields distinct values on the distinct
calls involved, two successive `renew_session` calls produce two different
session tokens and two different update tokens, and after the second call
the first session token fails `verify_session_token` (at every time) and
the first update token fails `verify_update_token`. -/
theorem renew_session_twice_spec (env : TokenEnv) (now1 now2 ctr : Nat)
    (u : UserState)
    (h1 : env.tokenAt ctr ≠ env.tokenAt (ctr + 2))
    (h2 : env.tokenAt (ctr + 1) ≠ env.tokenAt (ctr + 3)) :
    ((UserState.renew_session env now1 u ctr).1.session_token ≠
      (UserState.renew_session env now2 (UserState.renew_session env now1 u ctr).1
        (UserState.renew_session env now1 u ctr).2).1.session_token) ∧
    ((UserState.renew_session env now1 u ctr).1.update_token ≠
      (UserState.renew_session env now2 (UserState.renew_session env now1 u ctr).1
        (UserState.renew_session env now1 u ctr).2).1.update_token) ∧
    (∀ t : Nat, UserState.verify_session_token
      (UserState.renew_session env now2 (UserState.renew_session env now1 u ctr).1
        (UserState.renew_session env now1 u ctr).2).1
      (UserState.renew_session env now1 u ctr).1.session_token t = false) ∧
    (UserState.verify_update_token
      (UserState.renew_session env now2 (UserState.renew_session env now1 u ctr).1
        (UserState.renew_session env now1 u ctr).2).1
      (UserState.renew_session env now1 u ctr).1.update_token = false) := by
  refine ⟨h1, h2, ?_, ?_⟩
  · intro t
    simp only [UserState.verify_session_token, UserState.renew_session,
      TokenEnv.urlsafeBase64, TokenEnv.tokenAt] at h1 ⊢
    simp [beq_eq_false_iff_ne.mpr h1]
  · simp only [UserState.verify_update_token, UserState.renew_session,
      TokenEnv.urlsafeBase64, TokenEnv.tokenAt] at h2 ⊢
    exact beq_eq_false_iff_ne.mpr h2

/-- Witness for C7 at a concrete environment and user row. -/
theorem renew_session_twice_spec_witness :
    (envEx.tokenAt 0 ≠ envEx.tokenAt 2) ∧
    (envEx.tokenAt 1 ≠ envEx.tokenAt 3) ∧
    (((UserState.renew_session envEx 10 userEx 0).1.session_token ≠
       (UserState.renew_session envEx 20 (UserState.renew_session envEx 10 userEx 0).1
         (UserState.renew_session envEx 10 userEx 0).2).1.session_token) ∧
     ((UserState.renew_session envEx 10 userEx 0).1.update_token ≠
       (UserState.renew_session envEx 20 (UserState.renew_session envEx 10 userEx 0).1
         (UserState.renew_session envEx 10 userEx 0).2).1.update_token) ∧
     (∀ t : Nat, UserState.verify_session_token
       (UserState.renew_session envEx 20 (UserState.renew_session envEx 10 userEx 0).1
         (UserState.renew_session envEx 10 userEx 0).2).1
       (UserState.renew_session envEx 10 userEx 0).1.session_token t = false) ∧
     (UserState.verify_update_token
       (UserState.renew_session envEx 20 (UserState.renew_session envEx 10 userEx 0).1
         (UserState.renew_session envEx 10 userEx 0).2).1
       (UserState.renew_session envEx 10 userEx 0).1.update_token = false)) :=
  ⟨by decide, by decide,
   renew_session_twice_spec envEx 10 20 0 userEx (by decide) (by decide)⟩

/-- A sample bcrypt digest algorithm (stand-in for the real key schedule). -/
def algEx : String → String → String := fun p s => s ++ p

/-- A sample bcrypt verifier. -/
def chkEx : String → String → Bool := fun p h => h == "saltEx13" ++ p

/-- A sample `bcrypt.gensalt` returning a salt per cost factor. -/
def gensaltEx : Nat → String := fun r => "saltEx" ++ toString r

/-- A complete, valid creation request (every required field present). -/
def kwargsAlice : Kwargs :=
  { first_name := Option.some "Alice", last_name := Option.some "Smith",
    username := Option.some "alice", password_digest := Option.some "hunter2",
    image_url := Option.none }

/-- A creation request whose required field `first_name` is missing. -/
def kwargsNoFirst : Kwargs :=
  { first_name := Option.none, last_name := Option.some "Smith",
    username := Option.some "alice", password_digest := Option.some "hunter2",
    image_url := Option.none }

/-- C1: on the valid creation request for Alice with password hunter2, the
constructor raises `TypeError` at the password-hashing line (db.py line 46
calls `bcrypt.hashpw` with only one argument, no salt), so no digest is
ever stored and no user is constructed; the claimed behaviour (stored
salted digest, `verify_password` true on the original plaintext) is
unreachable. -/
theorem user_init_alice_raises_type_error :
    User.init algEx chkEx gensaltEx envEx 0 0 kwargsAlice =
      Except.error PyErr.typeError := rfl

/-- C6: for every hash algorithm, entropy environment, clock value and
creation request, `User.__init__` raises `TypeError` before reaching
`self.renew_session()` on db.py line 47, so creation never issues a
session and no freshly created account can verify its session token. -/
theorem user_init_never_issues_session (alg : String → String → String)
    (chk : String → String → Bool) (gensalt : Nat → String) (env : TokenEnv)
    (now ctr : Nat) (kwargs : Kwargs) :
    User.init alg chk gensalt env now ctr kwargs =
      Except.error PyErr.typeError := rfl

/-- C8 counterexample: on a creation request missing the required field
`first_name`, the constructor fails with `TypeError`, not with
`ValidationError` as the claim states. -/
theorem user_init_missing_field_not_validation_error :
    User.init algEx chkEx gensaltEx envEx 0 0 kwargsNoFirst =
      Except.error PyErr.typeError ∧
    PyErr.typeError ≠ PyErr.validationError :=
  ⟨rfl, by decide⟩

/-- C8 amended: for every creation request in which a required field is
missing, the constructor performs no validation of the missing field
(`kwargs.get` silently yields `None`) and fails with `TypeError` raised by
the single-argument `bcrypt.hashpw` call, never with `ValidationError`. -/
theorem user_init_missing_field_raises_type_error
    (alg : String → String → String) (chk : String → String → Bool)
    (gensalt : Nat → String) (env : TokenEnv) (now ctr : Nat) (kwargs : Kwargs)
    (_h : kwargs.first_name = Option.none ∨ kwargs.last_name = Option.none ∨
         kwargs.username = Option.none ∨ kwargs.password_digest = Option.none) :
    User.init alg chk gensalt env now ctr kwargs =
        Except.error PyErr.typeError ∧
      User.init alg chk gensalt env now ctr kwargs ≠
        Except.error PyErr.validationError := by
  refine ⟨rfl, ?_⟩
  intro hcontra
  have hty : User.init alg chk gensalt env now ctr kwargs =
      Except.error PyErr.typeError := rfl
  rw [hty] at hcontra
  simp at hcontra

/-- Witness for the amended C8 at the concrete missing-field request. -/
theorem user_init_missing_field_witness :
    (kwargsNoFirst.first_name = Option.none ∨
     kwargsNoFirst.last_name = Option.none ∨
     kwargsNoFirst.username = Option.none ∨
     kwargsNoFirst.password_digest = Option.none) ∧
    (User.init algEx chkEx gensaltEx envEx 0 0 kwargsNoFirst =
        Except.error PyErr.typeError ∧
      User.init algEx chkEx gensaltEx envEx 0 0 kwargsNoFirst ≠
        Except.error PyErr.validationError) :=
  ⟨Or.inl rfl,
   user_init_missing_field_raises_type_error algEx chkEx gensaltEx envEx 0 0
     kwargsNoFirst (Or.inl rfl)⟩

/-- A sample recipe whose ingredients and instructions are stored as lists. -/
def recipeEx : Recipe :=
  { id := 7, title := "Toast", summary := "Bread, warm",
    ingredients := PyVal.list [PyVal.str "bread"],
    instructions := PyVal.list [PyVal.str "toast it"],
    image_url := Option.none }

/-- A sample bookmark row linking `userEx` to `recipeEx`. -/
def savedEx : SavedRecipe :=
  { id := 3, user_id := 1, recipe_id := 7, recipe := recipeEx }

/-- The dict produced by serializing `userEx` with no posts and the single
bookmark `savedEx`. -/
def userDictEx : List (String × PyVal) :=
  [("id", PyVal.int 1),
   ("first_name", PyVal.str "Alice"),
   ("last_name", PyVal.str "Smith"),
   ("username", PyVal.str "alice"),
   ("posts", PyVal.list []),
   ("saved_recipes", PyVal.list
     [PyVal.dict
       [("id", PyVal.int 7),
        ("title", PyVal.str "Toast"),
        ("summary", PyVal.str "Bread, warm"),
        ("ingredients", PyVal.list [PyVal.str "bread"]),
        ("instructions", PyVal.list [PyVal.str "toast it"])]])]

/-- C4: whenever the full serialization produces a dict, that dict has no
key for the password digest, the session token or the update token, and
the simple serialization returns exactly the keys id, first_name,
last_name, username. -/
theorem user_serialization_excludes_credentials (u : UserState)
    (posts : List Post) (saved : List SavedRecipe)
    (d : List (String × PyVal)) :
    (UserState.serialize u posts saved = Except.ok d →
      ("password_digest" ∉ dictKeys d ∧ "session_token" ∉ dictKeys d ∧
       "update_token" ∉ dictKeys d)) ∧
    dictKeys (UserState.simple_serialize u) =
      ["id", "first_name", "last_name", "username"] := by
  constructor
  · intro h
    unfold UserState.serialize at h
    rcases hp : posts.mapM Post.serializeDispatch with e | postsJ <;> rw [hp] at h
    · cases h
    rcases hs : saved.mapM
        (fun saved => Except.map PyVal.dict saved.recipe.serialize) with
        e | savedJ <;> rw [hs] at h
    · cases h
    simp only [Except.ok.injEq] at h
    subst h
    simp [dictKeys]
  · rfl

/-- Witness for C4 at a concrete user row with one bookmarked recipe. -/
theorem user_serialization_excludes_credentials_witness :
    UserState.serialize userEx [] [savedEx] = Except.ok userDictEx ∧
    ("password_digest" ∉ dictKeys userDictEx ∧
     "session_token" ∉ dictKeys userDictEx ∧
     "update_token" ∉ dictKeys userDictEx) :=
  ⟨rfl,
   (user_serialization_excludes_credentials userEx [] [savedEx] userDictEx).1 rfl⟩

/-- A sample user row that does carry an avatar image URL. -/
def userWithAvatarEx : UserState :=
  { id := 2, first_name := Option.some "Bob",
    last_name := Option.some "Stone", username := Option.some "bob",
    password_digest := PyVal.str "digest2",
    image_url := Option.some "https://img.example/a.png",
    session_token := "sess2", session_expiration := 50,
    update_token := "upd2" }

/-- The dict produced by serializing `userWithAvatarEx` with no related
rows. -/
def userWithAvatarDictEx : List (String × PyVal) :=
  [("id", PyVal.int 2),
   ("first_name", PyVal.str "Bob"),
   ("last_name", PyVal.str "Stone"),
   ("username", PyVal.str "bob"),
   ("posts", PyVal.list []),
   ("saved_recipes", PyVal.list [])]

/-- C10: whenever the full serialization produces a dict, its keys are
exactly id, first_name, last_name, username, posts, saved_recipes; in
particular the stored avatar `image_url` appears in neither the full nor
the simple serialization. -/
theorem user_serialize_key_set (u : UserState) (posts : List Post)
    (saved : List SavedRecipe) (d : List (String × PyVal)) :
    (UserState.serialize u posts saved = Except.ok d →
      (dictKeys d =
         ["id", "first_name", "last_name", "username", "posts", "saved_recipes"] ∧
       "image_url" ∉ dictKeys d)) ∧
    "image_url" ∉ dictKeys (UserState.simple_serialize u) := by
  constructor
  · intro h
    unfold UserState.serialize at h
    rcases hp : posts.mapM Post.serializeDispatch with e | postsJ <;> rw [hp] at h
    · cases h
    rcases hs : saved.mapM
        (fun saved => Except.map PyVal.dict saved.recipe.serialize) with
        e | savedJ <;> rw [hs] at h
    · cases h
    simp only [Except.ok.injEq] at h
    subst h
    simp [dictKeys]
  · simp [dictKeys, UserState.simple_serialize]

/-- Witness for C10 at a concrete user row carrying an avatar URL. -/
theorem user_serialize_key_set_witness :
    UserState.serialize userWithAvatarEx [] [] = Except.ok userWithAvatarDictEx ∧
    (dictKeys userWithAvatarDictEx =
       ["id", "first_name", "last_name", "username", "posts", "saved_recipes"] ∧
     "image_url" ∉ dictKeys userWithAvatarDictEx) :=
  ⟨rfl, (user_serialize_key_set userWithAvatarEx [] [] userWithAvatarDictEx).1 rfl⟩

/-- C9: recipe serialization normalizes ingredients and instructions to a
list: a field stored as the newline-joined string "a\nb\nc" is serialized
as the list ["a", "b", "c"], and a field already stored as a list is
serialized as that same list unchanged. -/
theorem recipe_serialize_normalizes (r : Recipe) (xs ys : List PyVal) :
    (r.ingredients = PyVal.str "a\nb\nc" → r.instructions = PyVal.list ys →
      Recipe.serialize r = Except.ok
        [("id", PyVal.int r.id), ("title", PyVal.str r.title),
         ("summary", PyVal.str r.summary),
         ("ingredients", PyVal.list [PyVal.str "a", PyVal.str "b", PyVal.str "c"]),
         ("instructions", PyVal.list ys)]) ∧
    (r.ingredients = PyVal.list xs → r.instructions = PyVal.str "a\nb\nc" →
      Recipe.serialize r = Except.ok
        [("id", PyVal.int r.id), ("title", PyVal.str r.title),
         ("summary", PyVal.str r.summary),
         ("ingredients", PyVal.list xs),
         ("instructions", PyVal.list [PyVal.str "a", PyVal.str "b", PyVal.str "c"])]) := by
  constructor
  · intro h1 h2
    unfold Recipe.serialize
    rw [h1, h2]
    rfl
  · intro h1 h2
    unfold Recipe.serialize
    rw [h1, h2]
    rfl

/-- A sample recipe with newline-joined string ingredients and list
instructions. -/
def recipeStrEx : Recipe :=
  { id := 1, title := "T", summary := "S",
    ingredients := PyVal.str "a\nb\nc",
    instructions := PyVal.list [PyVal.str "mix"],
    image_url := Option.none }

/-- A sample recipe with list ingredients and newline-joined string
instructions. -/
def recipeListEx : Recipe :=
  { id := 2, title := "U", summary := "V",
    ingredients := PyVal.list [PyVal.str "x"],
    instructions := PyVal.str "a\nb\nc",
    image_url := Option.none }

/-- Witness for C9 at the two concrete recipes. -/
theorem recipe_serialize_normalizes_witness :
    Recipe.serialize recipeStrEx = Except.ok
      [("id", PyVal.int 1), ("title", PyVal.str "T"), ("summary", PyVal.str "S"),
       ("ingredients", PyVal.list [PyVal.str "a", PyVal.str "b", PyVal.str "c"]),
       ("instructions", PyVal.list [PyVal.str "mix"])] ∧
    Recipe.serialize recipeListEx = Except.ok
      [("id", PyVal.int 2), ("title", PyVal.str "U"), ("summary", PyVal.str "V"),
       ("ingredients", PyVal.list [PyVal.str "x"]),
       ("instructions", PyVal.list [PyVal.str "a", PyVal.str "b", PyVal.str "c"])] :=
  ⟨(recipe_serialize_normalizes recipeStrEx [] [PyVal.str "mix"]).1 rfl rfl,
   (recipe_serialize_normalizes recipeListEx [PyVal.str "x"] []).2 rfl rfl⟩
